import Mathlib

/-!
Verification of the Pyrate scan-orchestration core against its
natural-language specification.  The definitions below are a shallow
embedding of the Python sources:

  src/pyrate/models/scan_result.py   : Vulnerability, severity sort
  src/pyrate/core/plugin_manager.py  : PluginManager.get_active_plugins
  src/pyrate/core/scanner.py         : Scanner.scan_async, Scanner._run_plugin_async
  src/pyrate/utils/http_client.py    : HTTPClient._request

Python floats on the validated confidence field are embedded as exact
rationals, Python strings as Lean strings, the insertion-ordered dict of
registered plugins as an association list, and the cooperative async
execution as explicit outcome functions plus event traces.
-/

namespace Pyrate

/-- Embedding of the pydantic model Vulnerability
(models/scan_result.py lines 10-35).  The datetime timestamp of the source
is embedded as a Nat tick, the evidence mapping as an association list. -/
structure Vulnerability where
  title : String
  url : String
  severity : String
  description : String := ""
  recommendation : String := ""
  plugin_name : String
  plugin_category : String
  payload : String := ""
  request : Option String := none
  response : Option String := none
  evidence : List (String × String) := []
  timestamp : Nat := 0
  confidence : Rat := 1
  deriving DecidableEq

/-- Pydantic construction of a Vulnerability.  The only Field constraint on
the model is on confidence (ge 0.0, le 1.0, line 29 of scan_result.py);
severity is declared as a plain str field whose intended values appear only
in the description text of the Field, so construction performs no check on
it. -/
def Vulnerability.construct (v : Vulnerability) : Except String Vulnerability :=
  if 0 ≤ v.confidence ∧ v.confidence ≤ 1 then Except.ok v
  else Except.error "validation error for field confidence"

/-- Embedding of the severity_order dict lookup with default 5 used by
ScanResult.sort_vulnerabilities_by_severity (scan_result.py line 135). -/
def severity_order (s : String) : Nat :=
  if s = "CRITICAL" then 0
  else if s = "HIGH" then 1
  else if s = "MEDIUM" then 2
  else if s = "LOW" then 3
  else if s = "INFO" then 4
  else 5

/-- The sort key (severity rank, title) of scan_result.py line 137. -/
def sort_key (v : Vulnerability) : Nat × String :=
  (severity_order v.severity, v.title)

/-- Non-strict lexicographic comparison on the sort key: the total preorder
realised by the Python stable sort with key tuple (severity rank, title). -/
def sort_le (v w : Vulnerability) : Prop :=
  severity_order v.severity < severity_order w.severity ∨
    (severity_order v.severity = severity_order w.severity ∧ v.title ≤ w.title)

instance : DecidableRel sort_le := fun v w => by
  unfold sort_le; infer_instance

/-- Embedding of ScanResult.sort_vulnerabilities_by_severity
(scan_result.py lines 133-138): the in-place stable list.sort keyed by
(severity rank, title).  The Python stable sort is embedded as a stable
insertion sort over the same total preorder, which produces the identical
output list. -/
def sort_vulnerabilities_by_severity (l : List Vulnerability) : List Vulnerability :=
  l.insertionSort sort_le

/-- Embedding of a registered plugin: the metadata of BasePlugin
(models/plugin.py) that the plugin manager consults. -/
structure BasePlugin where
  name : String
  category : String := ""
  risk_level : String := ""
  deriving DecidableEq

/-- Embedding of PluginSettings (core/config.py lines 26-31), the part the
plugin manager consults. -/
structure PluginSettings where
  enabled_plugins : List String := []
  disabled_plugins : List String := []
  deriving DecidableEq

/-- Embedding of PluginManager state: the insertion-ordered dict _plugins
as an association list (keys unique in the source because the dict is keyed
by plugin name), plus the plugin configuration. -/
structure PluginManager where
  plugins : List (String × BasePlugin)
  settings : PluginSettings
  deriving DecidableEq

/-- Embedding of PluginManager.get_plugin (plugin_manager.py line 113):
dict get by name. -/
def PluginManager.get_plugin (pm : PluginManager) (name : String) : Option BasePlugin :=
  pm.plugins.lookup name

/-- Embedding of the requested-names loop of PluginManager.get_active_plugins
(plugin_manager.py lines 136-146): resolve each name, append when found and
not disabled, otherwise skip with a warning. -/
def requested_active_loop (pm : PluginManager) : List String → List BasePlugin
  | [] => []
  | n :: rest =>
    match pm.get_plugin n with
    | some p =>
      if pm.settings.disabled_plugins.contains n then requested_active_loop pm rest
      else p :: requested_active_loop pm rest
    | none => requested_active_loop pm rest

/-- Embedding of the default loop of PluginManager.get_active_plugins
(plugin_manager.py lines 149-162) over the registered plugin values:
when the enabled list is truthy (non-empty) keep plugins that are in it and
not disabled, otherwise keep every plugin not disabled. -/
def default_active_loop (settings : PluginSettings) : List BasePlugin → List BasePlugin
  | [] => []
  | p :: rest =>
    if !settings.enabled_plugins.isEmpty then
      if settings.enabled_plugins.contains p.name then
        if settings.disabled_plugins.contains p.name then default_active_loop settings rest
        else p :: default_active_loop settings rest
      else default_active_loop settings rest
    else
      if settings.disabled_plugins.contains p.name then default_active_loop settings rest
      else p :: default_active_loop settings rest

/-- Embedding of PluginManager.get_active_plugins (plugin_manager.py lines
124-162).  The source branches on the truthiness of requested_plugins, so
None and the empty list both take the default branch. -/
def PluginManager.get_active_plugins (pm : PluginManager)
    (requested_plugins : Option (List String)) : List BasePlugin :=
  match requested_plugins with
  | some req =>
    if !req.isEmpty then requested_active_loop pm req
    else default_active_loop pm.settings (pm.plugins.map Prod.snd)
  | none => default_active_loop pm.settings (pm.plugins.map Prod.snd)

/-- Spec wording of activePlugins with requestedNames given (spec 4.2): for
each requested name resolve via get, skip any name not found or present in
the disabled set, preserve the requested order. -/
def activePlugins_requested_spec (pm : PluginManager) (req : List String) : List BasePlugin :=
  req.filterMap fun n =>
    match pm.get_plugin n with
    | some p => if pm.settings.disabled_plugins.contains n then none else some p
    | none => none

/-- Spec wording of activePlugins with requestedNames omitted (spec 4.2):
with a non-empty allow-list keep exactly the registered plugins in the
allow-list and not in the disabled set, otherwise every registered plugin
not in the disabled set. -/
def activePlugins_default_spec (pm : PluginManager) : List BasePlugin :=
  (pm.plugins.map Prod.snd).filter fun p =>
    if pm.settings.enabled_plugins.isEmpty then
      !pm.settings.disabled_plugins.contains p.name
    else
      pm.settings.enabled_plugins.contains p.name &&
        !pm.settings.disabled_plugins.contains p.name

/-- Characters allowed in a URL scheme after the initial letter, per the
scheme_chars of urllib.parse: ASCII letters, digits, plus, minus, dot. -/
def scheme_char_ok (c : Char) : Bool :=
  c.isAlphanum || c = '+' || c = '-' || c = '.'

/-- WHATWG C0-control-or-space class stripped from both ends of a URL by
urllib.parse.urlsplit. -/
def c0_or_space (c : Char) : Bool :=
  c.val ≤ 32

/-- Tab, carriage return and line feed, removed everywhere inside a URL by
urllib.parse.urlsplit. -/
def tab_or_newline (c : Char) : Bool :=
  c = '\t' || c = '\r' || c = '\n'

/-- Strip C0 controls and spaces from both ends of the character list. -/
def strip_c0 (l : List Char) : List Char :=
  ((l.dropWhile c0_or_space).reverse.dropWhile c0_or_space).reverse

/-- Scheme extraction of urllib.parse.urlsplit: a colon at a positive
index, an ASCII letter first, and only scheme characters before the colon
split the URL into scheme and remainder; otherwise the scheme is empty. -/
def split_scheme (l : List Char) : List Char × List Char :=
  match l.findIdx? (fun c => c = ':') with
  | some i =>
    if 0 < i
        && (match l.head? with | some c => c.isAlpha | none => false)
        && (l.take i).all scheme_char_ok then
      ((l.take i).map Char.toLower, l.drop (i + 1))
    else ([], l)
  | none => ([], l)

/-- Netloc extraction of urllib.parse.urlsplit: when the remainder after
the scheme starts with two slashes, the netloc runs to the first slash,
question mark or hash; otherwise it is empty. -/
def split_netloc (l : List Char) : List Char :=
  if l.take 2 = ['/', '/'] then
    (l.drop 2).takeWhile (fun c => !(c = '/' || c = '?' || c = '#'))
  else []

/-- The scheme and netloc components of a parsed URL. -/
structure UrlParts where
  scheme : List Char
  netloc : List Char
  deriving DecidableEq

/-- Embedding of the scheme and netloc fields of urllib.parse.urlparse,
as used by Scanner.scan_async line 57 and validated on lines 58-59. -/
def urlparse (url : String) : UrlParts :=
  let l := (strip_c0 url.toList).filter (fun c => !tab_or_newline c)
  let p := split_scheme l
  UrlParts.mk p.1 (split_netloc p.2)

/-- Target validity as checked by Scanner.scan_async lines 58-59: both the
scheme and the netloc of the parsed target are truthy (non-empty). -/
def validTargetURL (target : String) : Bool :=
  !(urlparse target).scheme.isEmpty && !(urlparse target).netloc.isEmpty

/-- Embedding of the scan_info dict built by Scanner.scan_async
(scanner.py lines 66-70 and 75). -/
structure ScanInfo where
  scanner_version : String
  target_url : String
  plugins_used : List String
  deriving DecidableEq

/-- Embedding of ScanResult (models/scan_result.py lines 38-44) restricted
to the fields the orchestration writes. -/
structure ScanResult where
  target : String
  vulnerabilities : List Vulnerability
  scan_info : ScanInfo
  deriving DecidableEq

/-- The error raised by Scanner.scan_async line 59 for a malformed target
(ValueError in the source, InvalidTargetError in the spec taxonomy). -/
inductive ScanError where
  | invalidTarget (target : String)
  deriving DecidableEq

/-- One observable orchestration event: the creation of the concurrent task
for one plugin (scanner.py lines 89-93). -/
inductive ScanEvent where
  | launched (plugin_name : String)
  deriving DecidableEq

instance exceptDecidableEq {ε α : Type} [DecidableEq ε] [DecidableEq α] :
    DecidableEq (Except ε α) := fun a b =>
  match a, b with
  | Except.ok x, Except.ok y =>
    if h : x = y then isTrue (by rw [h])
    else isFalse (by intro hh; injection hh; exact h (by assumption))
  | Except.error x, Except.error y =>
    if h : x = y then isTrue (by rw [h])
    else isFalse (by intro hh; injection hh; exact h (by assumption))
  | Except.ok _, Except.error _ => isFalse (by intro hh; exact Except.noConfusion hh)
  | Except.error _, Except.ok _ => isFalse (by intro hh; exact Except.noConfusion hh)

/-- The behaviour of one plugin task in one scan: the cooperative
completion time of the task and the outcome of the plugin run coroutine,
either a vulnerability list or a raised exception message. -/
structure PluginRun where
  completion_time : Nat
  outcome : Except String (List Vulnerability)
  deriving DecidableEq

/-- Embedding of Scanner._run_plugin_async (scanner.py lines 129-156): the
plugin run is awaited inside try, any exception is caught at this task
boundary, logged, and converted into the empty vulnerability list. -/
def run_plugin_async (r : PluginRun) : List Vulnerability :=
  match r.outcome with
  | Except.ok vulnerabilities => vulnerabilities
  | Except.error _ => []

/-- Embedding of Scanner.scan_async (scanner.py lines 39-110), with the
run-time behaviour of each plugin given by the behavior function (keyed by
plugin name) and the launched tasks recorded as a trace.  The task results
are collected by asyncio.gather, whose result list is ordered by the input
awaitables, that is in launch order. -/
def scan_async (pm : PluginManager) (behavior : String → PluginRun)
    (target : String) (plugins : Option (List String)) :
    Except ScanError ScanResult × List ScanEvent :=
  let parsed := urlparse target
  if parsed.scheme.isEmpty || parsed.netloc.isEmpty then
    (Except.error (ScanError.invalidTarget target), [])
  else
    let active := pm.get_active_plugins plugins
    let info := ScanInfo.mk "0.1.0" target (active.map BasePlugin.name)
    if active.isEmpty then
      (Except.ok (ScanResult.mk target [] info), [])
    else
      let tasks := active.map fun p => behavior p.name
      let plugin_results := tasks.map run_plugin_async
      (Except.ok (ScanResult.mk target plugin_results.flatten info),
        active.map fun p => ScanEvent.launched p.name)

/-- Ordering of plugin tasks by cooperative completion time. -/
def completes_before (a b : PluginRun) : Prop :=
  a.completion_time ≤ b.completion_time

instance : DecidableRel completes_before := fun a b => by
  unfold completes_before; infer_instance

/-- Spec wording of the aggregation step (spec 4.3 step 5 and spec 5):
merge every successful task findings in task-completion order.  Completion
order is the stable sort of the launched tasks by completion time. -/
def completionOrderMerge_spec (active : List BasePlugin)
    (behavior : String → PluginRun) : List Vulnerability :=
  (((active.map fun p => behavior p.name).insertionSort completes_before).map
    run_plugin_async).flatten

/-- Embedding of ScannerSettings (core/config.py lines 14-23), the part the
HTTP client consults; the float delay is embedded as an exact rational. -/
structure ScannerSettings where
  max_concurrent_requests : Nat := 10
  request_timeout : Nat := 30
  retry_attempts : Nat := 3
  delay_between_requests : Rat := 1 / 10
  follow_redirects : Bool := true
  verify_ssl : Bool := true
  deriving DecidableEq

/-- The outcome of one attempt of the aiohttp session request: a response
object with a status code (any status, including 4xx and 5xx), a
connection-level ClientError, or an unexpected exception. -/
inductive AttemptOutcome where
  | httpResponse (status : Nat)
  | clientError (msg : String)
  | otherError (msg : String)
  deriving DecidableEq

/-- The error propagated out of HTTPClient._request: the ClientError raised
after the final retry (TransportError in the spec taxonomy), or an
unexpected error re-raised immediately. -/
inductive ReqError where
  | clientError (msg : String)
  | otherError (msg : String)
  deriving DecidableEq

/-- Observable transport events of one HTTPClient._request call, in order:
semaphore acquisition and release, the start of each attempt, the
exponential backoff sleeps, and the inter-request delay sleep. -/
inductive ReqEvent where
  | acquirePermit
  | attemptStart (attempt : Nat)
  | backoffSleep (units : Nat)
  | delaySleep (units : Rat)
  | releasePermit
  deriving DecidableEq

/-- Embedding of the retry loop of HTTPClient._request (http_client.py
lines 192-224), run for attempt indices starting at attempt with remaining
iterations left.  A response (any status) is read and returned after the
optional inter-request delay; a ClientError before the last attempt sleeps
2 ^ attempt and retries; a ClientError on the last attempt re-raises; any
other exception re-raises immediately.  The zero-fuel case corresponds to
the loop falling off the end, unreachable from the entry point below. -/
def attempt_loop (cfg : ScannerSettings) (outcomes : Nat → AttemptOutcome) :
    Nat → Nat → Except ReqError Nat × List ReqEvent
  | 0, _ => (Except.error (ReqError.otherError "loop exhausted"), [])
  | remaining + 1, attempt =>
    match outcomes attempt with
    | AttemptOutcome.httpResponse status =>
      (Except.ok status,
        ReqEvent.attemptStart attempt ::
          (if 0 < cfg.delay_between_requests then
            [ReqEvent.delaySleep cfg.delay_between_requests]
          else []))
    | AttemptOutcome.clientError msg =>
      if attempt < cfg.retry_attempts then
        let rest := attempt_loop cfg outcomes remaining (attempt + 1)
        (rest.1,
          ReqEvent.attemptStart attempt :: ReqEvent.backoffSleep (2 ^ attempt) :: rest.2)
      else
        (Except.error (ReqError.clientError msg), [ReqEvent.attemptStart attempt])
    | AttemptOutcome.otherError msg =>
      (Except.error (ReqError.otherError msg), [ReqEvent.attemptStart attempt])

/-- Embedding of HTTPClient._request (http_client.py lines 162-224): the
retry loop runs inside the async-with semaphore block, so the permit is
acquired first and released when the block exits, on return as well as on a
propagating exception. -/
def HTTPClient_request (cfg : ScannerSettings) (outcomes : Nat → AttemptOutcome) :
    Except ReqError Nat × List ReqEvent :=
  let r := attempt_loop cfg outcomes (cfg.retry_attempts + 1) 0
  (r.1, ReqEvent.acquirePermit :: r.2 ++ [ReqEvent.releasePermit])

/-- Number of attempt-start events in a transport trace. -/
def attemptCount (evs : List ReqEvent) : Nat :=
  evs.countP fun e =>
    match e with
    | ReqEvent.attemptStart _ => true
    | _ => false

/-- The backoff sleep durations of a transport trace, in order. -/
def backoffs (evs : List ReqEvent) : List Nat :=
  evs.filterMap fun e =>
    match e with
    | ReqEvent.backoffSleep t => some t
    | _ => none

/-- The trace produced by k consecutive failed-and-retried attempts, the
first one with index a. -/
def retry_trace (a : Nat) : Nat → List ReqEvent
  | 0 => []
  | k + 1 =>
    ReqEvent.attemptStart a :: ReqEvent.backoffSleep (2 ^ a) :: retry_trace (a + 1) k

/-- Boolean success test on an Except value, the shape of the outcome of a
plugin run coroutine. -/
def exceptIsOk {ε α : Type} (e : Except ε α) : Bool :=
  match e with
  | Except.ok _ => true
  | Except.error _ => false

theorem requested_active_loop_eq_spec (pm : PluginManager) :
    ∀ req : List String, requested_active_loop pm req = activePlugins_requested_spec pm req := by
  intro req
  induction req with
  | nil => rfl
  | cons n rest ih =>
    simp only [requested_active_loop, activePlugins_requested_spec,
      List.filterMap_cons] at ih ⊢
    cases h : pm.get_plugin n with
    | none => simp [h, ih]
    | some p =>
      by_cases hd : n ∈ pm.settings.disabled_plugins <;>
        simp [h, hd, List.contains, ih]

theorem default_active_loop_eq_filter (s : PluginSettings) :
    ∀ l : List BasePlugin, default_active_loop s l =
      l.filter fun p =>
        if s.enabled_plugins.isEmpty then !s.disabled_plugins.contains p.name
        else s.enabled_plugins.contains p.name && !s.disabled_plugins.contains p.name := by
  intro l
  induction l with
  | nil => rfl
  | cons p rest ih =>
    simp only [default_active_loop, List.filter_cons]
    cases he : s.enabled_plugins.isEmpty <;>
      cases hd : s.disabled_plugins.contains p.name <;>
        cases hen : s.enabled_plugins.contains p.name <;>
          simp [he, hd, hen, ih]

/-- Claim C7: for every non-empty requested-names list, get_active_plugins
returns exactly the plugins among the requested names that are registered
and not in the disabled set, in the requested order, skipping (with a
warning) any name that is unregistered or disabled. -/
theorem get_active_plugins_requested_correct (pm : PluginManager)
    (req : List String) (hne : req ≠ []) :
    pm.get_active_plugins (some req) = activePlugins_requested_spec pm req := by
  cases req with
  | nil => exact absurd rfl hne
  | cons n rest => exact requested_active_loop_eq_spec pm (n :: rest)

def plugin_a : BasePlugin := { name := "a" }

def plugin_b : BasePlugin := { name := "b" }

def plugin_c : BasePlugin := { name := "c" }

def pm_ab : PluginManager :=
  { plugins := [("a", plugin_a), ("b", plugin_b)], settings := {} }

/-- Witness for C7 at the spec example: requesting a, missing, b with
missing unregistered yields exactly a then b, in that order. -/
theorem get_active_plugins_requested_correct_witness :
    (["a", "missing", "b"] : List String) ≠ [] ∧
      pm_ab.get_active_plugins (some ["a", "missing", "b"]) =
        activePlugins_requested_spec pm_ab ["a", "missing", "b"] ∧
      pm_ab.get_active_plugins (some ["a", "missing", "b"]) = [plugin_a, plugin_b] :=
  ⟨by decide,
   get_active_plugins_requested_correct pm_ab ["a", "missing", "b"] (by decide),
   by decide⟩

/-- Claim C8: with requestedNames omitted the active set is exactly the
registered plugins passing the enabled/disabled configuration filter, and a
plugin whose name is in the disabled set is always excluded, even when the
name is also in the enabled allow-list. -/
theorem get_active_plugins_default_correct (pm : PluginManager) :
    pm.get_active_plugins none = activePlugins_default_spec pm ∧
      ∀ p, p ∈ pm.get_active_plugins none →
        pm.settings.disabled_plugins.contains p.name = false := by
  have h1 : pm.get_active_plugins none =
      (pm.plugins.map Prod.snd).filter fun p =>
        if pm.settings.enabled_plugins.isEmpty then
          !pm.settings.disabled_plugins.contains p.name
        else
          pm.settings.enabled_plugins.contains p.name &&
            !pm.settings.disabled_plugins.contains p.name :=
    default_active_loop_eq_filter pm.settings (pm.plugins.map Prod.snd)
  refine ⟨h1, ?_⟩
  intro p hp
  rw [h1, List.mem_filter] at hp
  rcases hp with ⟨-, hpred⟩
  by_cases he : pm.settings.enabled_plugins.isEmpty <;> simp [he] at hpred <;> simp [hpred]

def pm_conflict : PluginManager :=
  { plugins := [("a", plugin_a), ("b", plugin_b)],
    settings := { enabled_plugins := ["a", "b"], disabled_plugins := ["a"] } }

/-- Witness for C8 on a conflicting configuration: plugin a is both enabled
and disabled and is excluded, plugin b survives the filter. -/
theorem get_active_plugins_default_correct_witness :
    pm_conflict.get_active_plugins none = activePlugins_default_spec pm_conflict ∧
      pm_conflict.settings.disabled_plugins.contains plugin_b.name = false ∧
      pm_conflict.get_active_plugins none = [plugin_b] :=
  ⟨(get_active_plugins_default_correct pm_conflict).1,
   (get_active_plugins_default_correct pm_conflict).2 plugin_b (by decide),
   by decide⟩

/-- Claim C10: calling get_active_plugins with an empty requested list is
treated the same as omitting the argument, because the source branches on
the truthiness of the argument: the full enabled set of registered plugins
is returned, not the empty sequence. -/
theorem get_active_plugins_empty_list_like_none :
    (∀ pm : PluginManager,
        pm.get_active_plugins (some []) = pm.get_active_plugins none ∧
          pm.get_active_plugins (some []) = activePlugins_default_spec pm) ∧
      pm_ab.get_active_plugins (some []) ≠ [] := by
  refine ⟨fun pm => ⟨rfl, ?_⟩, by decide⟩
  exact default_active_loop_eq_filter pm.settings (pm.plugins.map Prod.snd)

/-- Witness for C10 at a concrete two-plugin registry. -/
theorem get_active_plugins_empty_list_like_none_witness :
    pm_ab.get_active_plugins (some []) = pm_ab.get_active_plugins none ∧
      pm_ab.get_active_plugins (some []) = activePlugins_default_spec pm_ab :=
  get_active_plugins_empty_list_like_none.1 pm_ab

theorem scan_async_ok (pm : PluginManager) (behavior : String → PluginRun)
    (target : String) (plugins : Option (List String))
    (hv : validTargetURL target = true) :
    scan_async pm behavior target plugins =
      (Except.ok (ScanResult.mk target
        (((pm.get_active_plugins plugins).map
          fun p => run_plugin_async (behavior p.name)).flatten)
        (ScanInfo.mk "0.1.0" target
          ((pm.get_active_plugins plugins).map BasePlugin.name))),
       (pm.get_active_plugins plugins).map fun p => ScanEvent.launched p.name) := by
  simp only [validTargetURL, Bool.and_eq_true, Bool.not_eq_true'] at hv
  obtain ⟨hs, hn⟩ := hv
  unfold scan_async
  by_cases ha : (pm.get_active_plugins plugins).isEmpty
  · rw [List.isEmpty_iff] at ha
    simp [hs, hn, ha]
  · simp only [Bool.not_eq_true] at ha
    simp [hs, hn, ha, Function.comp_def]

theorem flatten_successful_only (behavior : String → PluginRun) :
    ∀ l : List BasePlugin,
      (l.map fun p => run_plugin_async (behavior p.name)).flatten =
        ((l.filter fun p => exceptIsOk (behavior p.name).outcome).map
          fun p => run_plugin_async (behavior p.name)).flatten := by
  intro l
  induction l with
  | nil => rfl
  | cons p rest ih =>
    simp only [List.map_cons, List.flatten_cons, List.filter_cons]
    cases h : (behavior p.name).outcome with
    | ok vs =>
      have hc : exceptIsOk (Except.ok vs : Except String (List Vulnerability)) = true := rfl
      simp [hc, ih]
    | error e =>
      have hc : exceptIsOk (Except.error e : Except String (List Vulnerability)) = false := rfl
      have h2 : run_plugin_async (behavior p.name) = [] := by
        simp [run_plugin_async, h]
      simp [hc, h2, ih]

/-- Claim C1: when one active plugin run raises an unhandled error and the
other active plugins succeed, scan still returns normally, the resulting
findings are exactly the concatenation of the successful plugin findings,
the failed plugin contributes zero findings, and plugins_used holds the
names of all active plugins, the failed one included. -/
theorem scan_isolates_plugin_failure (pm : PluginManager)
    (behavior : String → PluginRun) (target : String)
    (plugins : Option (List String)) (f : BasePlugin)
    (hv : validTargetURL target = true)
    (hf : f ∈ pm.get_active_plugins plugins)
    (hfail : exceptIsOk (behavior f.name).outcome = false)
    (hsucc : ∀ p ∈ pm.get_active_plugins plugins, p.name ≠ f.name →
      exceptIsOk (behavior p.name).outcome = true) :
    ∃ r : ScanResult, (scan_async pm behavior target plugins).1 = Except.ok r ∧
      r.scan_info.plugins_used = (pm.get_active_plugins plugins).map BasePlugin.name ∧
      f.name ∈ r.scan_info.plugins_used ∧
      run_plugin_async (behavior f.name) = [] ∧
      r.vulnerabilities =
        (((pm.get_active_plugins plugins).filter
            fun p => exceptIsOk (behavior p.name).outcome).map
          fun p => run_plugin_async (behavior p.name)).flatten := by
  refine ⟨_, by rw [scan_async_ok pm behavior target plugins hv], rfl, ?_, ?_, ?_⟩
  · exact List.mem_map.mpr ⟨f, hf, rfl⟩
  · cases h : (behavior f.name).outcome with
    | ok vs => rw [h] at hfail; simp [exceptIsOk] at hfail
    | error e => simp [run_plugin_async, h]
  · exact flatten_successful_only behavior (pm.get_active_plugins plugins)

def vuln_a : Vulnerability :=
  { title := "va", url := "http://example.com/1", severity := "HIGH",
    plugin_name := "a", plugin_category := "cat" }

def vuln_b : Vulnerability :=
  { title := "vb", url := "http://example.com/2", severity := "LOW",
    plugin_name := "b", plugin_category := "cat" }

def vuln_c : Vulnerability :=
  { title := "vc", url := "http://example.com/3", severity := "MEDIUM",
    plugin_name := "c", plugin_category := "cat" }

def pm_abc : PluginManager :=
  { plugins := [("a", plugin_a), ("b", plugin_b), ("c", plugin_c)], settings := {} }

/-- Behaviour in which plugin b raises while plugins a and c succeed. -/
def behavior_bfails : String → PluginRun := fun n =>
  if n = "a" then PluginRun.mk 3 (Except.ok [vuln_a])
  else if n = "b" then PluginRun.mk 1 (Except.error "boom")
  else PluginRun.mk 2 (Except.ok [vuln_c])

/-- Witness for C1: a three-plugin scan in which b raises and a, c succeed
returns normally per the theorem. -/
theorem scan_isolates_plugin_failure_witness :
    validTargetURL "http://example.com" = true ∧
      plugin_b ∈ pm_abc.get_active_plugins none ∧
      exceptIsOk (behavior_bfails plugin_b.name).outcome = false ∧
      ∃ r : ScanResult, (scan_async pm_abc behavior_bfails "http://example.com" none).1 =
          Except.ok r ∧
        r.scan_info.plugins_used = (pm_abc.get_active_plugins none).map BasePlugin.name ∧
        plugin_b.name ∈ r.scan_info.plugins_used ∧
        run_plugin_async (behavior_bfails plugin_b.name) = [] ∧
        r.vulnerabilities =
          (((pm_abc.get_active_plugins none).filter
              fun p => exceptIsOk (behavior_bfails p.name).outcome).map
            fun p => run_plugin_async (behavior_bfails p.name)).flatten :=
  ⟨by decide, by decide, by decide,
   scan_isolates_plugin_failure pm_abc behavior_bfails "http://example.com" none plugin_b
     (by decide) (by decide) (by decide) (by decide)⟩

/-- Claim C2: a target that does not parse to a URL with both a scheme and
an authority makes scan fail with the invalid-target error before anything
happens: no plugin task is launched and the event trace is empty. -/
theorem scan_invalid_target (pm : PluginManager) (behavior : String → PluginRun)
    (plugins : Option (List String)) (target : String)
    (hv : validTargetURL target = false) :
    (scan_async pm behavior target plugins).1 =
        Except.error (ScanError.invalidTarget target) ∧
      (scan_async pm behavior target plugins).2 = [] := by
  simp only [validTargetURL, Bool.and_eq_false_iff, Bool.not_eq_false'] at hv
  unfold scan_async
  rcases hv with h | h <;> simp [h]

/-- Witness for C2 at the two spec examples of invalid targets. -/
theorem scan_invalid_target_witness :
    validTargetURL "not-a-url" = false ∧ validTargetURL "" = false ∧
      (scan_async pm_abc behavior_bfails "not-a-url" none).1 =
          Except.error (ScanError.invalidTarget "not-a-url") ∧
      (scan_async pm_abc behavior_bfails "not-a-url" none).2 = [] ∧
      (scan_async pm_abc behavior_bfails "" none).1 =
          Except.error (ScanError.invalidTarget "") ∧
      (scan_async pm_abc behavior_bfails "" none).2 = [] :=
  ⟨by decide, by decide,
   (scan_invalid_target pm_abc behavior_bfails none "not-a-url" (by decide)).1,
   (scan_invalid_target pm_abc behavior_bfails none "not-a-url" (by decide)).2,
   (scan_invalid_target pm_abc behavior_bfails none "" (by decide)).1,
   (scan_invalid_target pm_abc behavior_bfails none "" (by decide)).2⟩

/-- Behaviour in which plugin a is launched first but completes second. -/
def behavior_swap : String → PluginRun := fun n =>
  if n = "a" then PluginRun.mk 2 (Except.ok [vuln_a])
  else PluginRun.mk 1 (Except.ok [vuln_b])

/-- Counterexample to C4: a two-plugin scan in which the first-launched
plugin completes last still merges findings in launch order, because
asyncio.gather returns results ordered by the input awaitables; the
completion-order merge demanded by the claim would give the reverse. -/
theorem scan_completion_order_counterexample :
    2 ≤ (pm_ab.get_active_plugins none).length ∧
      validTargetURL "http://example.com" = true ∧
      (behavior_swap "b").completion_time < (behavior_swap "a").completion_time ∧
      (scan_async pm_ab behavior_swap "http://example.com" none).1 =
        Except.ok (ScanResult.mk "http://example.com" [vuln_a, vuln_b]
          (ScanInfo.mk "0.1.0" "http://example.com" ["a", "b"])) ∧
      completionOrderMerge_spec (pm_ab.get_active_plugins none) behavior_swap =
        [vuln_b, vuln_a] ∧
      ([vuln_a, vuln_b] : List Vulnerability) ≠ [vuln_b, vuln_a] := by
  decide

/-- Claim C4 (amended): for every scan with at least two active plugins the
findings merged into the result appear in plugin launch order, the order of
the active plugin list, not in task completion order. -/
theorem scan_merges_in_launch_order (pm : PluginManager)
    (behavior : String → PluginRun) (target : String)
    (plugins : Option (List String))
    (hv : validTargetURL target = true)
    (h2 : 2 ≤ (pm.get_active_plugins plugins).length) :
    ∃ r : ScanResult, (scan_async pm behavior target plugins).1 = Except.ok r ∧
      r.vulnerabilities =
        ((pm.get_active_plugins plugins).map
          fun p => run_plugin_async (behavior p.name)).flatten :=
  ⟨_, by rw [scan_async_ok pm behavior target plugins hv], rfl⟩

/-- Witness for the amended C4 on the two-plugin scan of the
counterexample. -/
theorem scan_merges_in_launch_order_witness :
    validTargetURL "http://example.com" = true ∧
      2 ≤ (pm_ab.get_active_plugins none).length ∧
      ∃ r : ScanResult, (scan_async pm_ab behavior_swap "http://example.com" none).1 =
          Except.ok r ∧
        r.vulnerabilities =
          ((pm_ab.get_active_plugins none).map
            fun p => run_plugin_async (behavior_swap p.name)).flatten :=
  ⟨by decide, by decide,
   scan_merges_in_launch_order pm_ab behavior_swap "http://example.com" none
     (by decide) (by decide)⟩

theorem attemptCount_retry_trace (k : Nat) : ∀ a, attemptCount (retry_trace a k) = k := by
  induction k with
  | zero => intro a; rfl
  | succ k ih =>
    intro a
    simp only [retry_trace, attemptCount, List.countP_cons] at ih ⊢
    simp [ih (a + 1)]

theorem backoffs_retry_trace (k : Nat) :
    ∀ a, backoffs (retry_trace a k) = (List.range' a k).map (2 ^ ·) := by
  induction k with
  | zero => intro a; rfl
  | succ k ih =>
    intro a
    simp only [retry_trace, backoffs, List.filterMap_cons, List.range'_succ,
      List.map_cons] at ih ⊢
    simp [ih (a + 1)]

theorem delaySleep_not_mem_retry_trace (k : Nat) :
    ∀ a (d : Rat), ReqEvent.delaySleep d ∉ retry_trace a k := by
  induction k with
  | zero => intro a d h; exact absurd h (List.not_mem_nil _)
  | succ k ih =>
    intro a d h
    simp only [retry_trace, List.mem_cons] at h
    rcases h with h | h | h
    · exact ReqEvent.noConfusion h
    · exact ReqEvent.noConfusion h
    · exact ih (a + 1) d h

theorem attempt_loop_response (cfg : ScannerSettings) (outcomes : Nat → AttemptOutcome)
    (msgs : Nat → String) (j s : Nat) :
    ∀ remaining a, a + remaining = cfg.retry_attempts + 1 → a ≤ j →
      j ≤ cfg.retry_attempts →
      (∀ i, a ≤ i → i < j → outcomes i = AttemptOutcome.clientError (msgs i)) →
      outcomes j = AttemptOutcome.httpResponse s →
      attempt_loop cfg outcomes remaining a =
        (Except.ok s,
          retry_trace a (j - a) ++
            ReqEvent.attemptStart j ::
              (if 0 < cfg.delay_between_requests then
                [ReqEvent.delaySleep cfg.delay_between_requests]
              else [])) := by
  intro remaining
  induction remaining with
  | zero => intro a ha haj hj hfail hresp; omega
  | succ remaining ih =>
    intro a ha haj hj hfail hresp
    rcases Nat.eq_or_lt_of_le haj with rfl | hlt
    · simp [attempt_loop, hresp, retry_trace, Nat.sub_self]
    · have hca : outcomes a = AttemptOutcome.clientError (msgs a) := hfail a le_rfl hlt
      have haret : a < cfg.retry_attempts := lt_of_lt_of_le hlt hj
      simp only [attempt_loop, hca, if_pos haret]
      rw [ih (a + 1) (by omega) hlt hj (fun i h1 h2 => hfail i (by omega) h2) hresp]
      have hsub : j - a = (j - (a + 1)) + 1 := by omega
      rw [hsub]
      simp [retry_trace]

theorem attempt_loop_exhausted (cfg : ScannerSettings) (outcomes : Nat → AttemptOutcome)
    (msgs : Nat → String) :
    ∀ remaining a, a + remaining = cfg.retry_attempts + 1 →
      a ≤ cfg.retry_attempts →
      (∀ i, a ≤ i → i ≤ cfg.retry_attempts →
        outcomes i = AttemptOutcome.clientError (msgs i)) →
      attempt_loop cfg outcomes remaining a =
        (Except.error (ReqError.clientError (msgs cfg.retry_attempts)),
          retry_trace a (cfg.retry_attempts - a) ++
            [ReqEvent.attemptStart cfg.retry_attempts]) := by
  intro remaining
  induction remaining with
  | zero => intro a ha haj hfail; omega
  | succ remaining ih =>
    intro a ha haj hfail
    rcases Nat.eq_or_lt_of_le haj with rfl | hlt
    · have hca : outcomes cfg.retry_attempts =
          AttemptOutcome.clientError (msgs cfg.retry_attempts) :=
        hfail cfg.retry_attempts le_rfl le_rfl
      simp [attempt_loop, hca, retry_trace, Nat.sub_self]
    · have hca : outcomes a = AttemptOutcome.clientError (msgs a) :=
        hfail a le_rfl (le_of_lt hlt)
      simp only [attempt_loop, hca, if_pos hlt]
      rw [ih (a + 1) (by omega) hlt (fun i h1 h2 => hfail i (by omega) h2)]
      have hsub : cfg.retry_attempts - a = (cfg.retry_attempts - (a + 1)) + 1 := by omega
      rw [hsub]
      simp [retry_trace]

theorem attemptCount_attempt_loop_le (cfg : ScannerSettings)
    (outcomes : Nat → AttemptOutcome) :
    ∀ remaining a, attemptCount (attempt_loop cfg outcomes remaining a).2 ≤ remaining := by
  intro remaining
  induction remaining with
  | zero => intro a; simp [attempt_loop, attemptCount]
  | succ remaining ih =>
    intro a
    cases houtcome : outcomes a with
    | httpResponse s =>
      by_cases hd : 0 < cfg.delay_between_requests <;>
        simp [attempt_loop, houtcome, hd, attemptCount, List.countP_cons]
    | clientError m =>
      by_cases hr : a < cfg.retry_attempts
      · have h1 := ih (a + 1)
        simp only [attemptCount] at h1
        simp [attempt_loop, houtcome, hr, attemptCount, List.countP_cons]
        omega
      · simp [attempt_loop, houtcome, hr, attemptCount, List.countP_cons]
    | otherError m =>
      simp [attempt_loop, houtcome, attemptCount, List.countP_cons]

theorem attemptCount_request_trace (cfg : ScannerSettings)
    (outcomes : Nat → AttemptOutcome) :
    attemptCount (HTTPClient_request cfg outcomes).2 =
      attemptCount (attempt_loop cfg outcomes (cfg.retry_attempts + 1) 0).2 := by
  simp [HTTPClient_request, attemptCount, List.countP_cons, List.countP_append]

theorem backoffs_request_trace (cfg : ScannerSettings)
    (outcomes : Nat → AttemptOutcome) :
    backoffs (HTTPClient_request cfg outcomes).2 =
      backoffs (attempt_loop cfg outcomes (cfg.retry_attempts + 1) 0).2 := by
  simp [HTTPClient_request, backoffs, List.filterMap_cons, List.filterMap_append]

/-- Claim C3: a request through the transport is attempted at most
retryAttempts + 1 times with an exponential backoff sleep of 2 ^ attempt
units before each retry; when every attempt fails with a connection-level
ClientError the final error propagates to the caller after exactly
retryAttempts + 1 attempts; when an attempt yields an HTTP response its
status, 4xx and 5xx included, is returned as an ordinary response with no
further attempt. -/
theorem http_request_retry_policy (cfg : ScannerSettings)
    (outcomes : Nat → AttemptOutcome) (msgs : Nat → String) (j s : Nat) :
    attemptCount (HTTPClient_request cfg outcomes).2 ≤ cfg.retry_attempts + 1 ∧
      ((∀ i, i ≤ cfg.retry_attempts → outcomes i = AttemptOutcome.clientError (msgs i)) →
        (HTTPClient_request cfg outcomes).1 =
            Except.error (ReqError.clientError (msgs cfg.retry_attempts)) ∧
          attemptCount (HTTPClient_request cfg outcomes).2 = cfg.retry_attempts + 1 ∧
          backoffs (HTTPClient_request cfg outcomes).2 =
            (List.range cfg.retry_attempts).map (2 ^ ·)) ∧
      ((∀ i, i < j → outcomes i = AttemptOutcome.clientError (msgs i)) →
        j ≤ cfg.retry_attempts → outcomes j = AttemptOutcome.httpResponse s →
        (HTTPClient_request cfg outcomes).1 = Except.ok s ∧
          attemptCount (HTTPClient_request cfg outcomes).2 = j + 1 ∧
          backoffs (HTTPClient_request cfg outcomes).2 = (List.range j).map (2 ^ ·)) := by
  refine ⟨?_, ?_, ?_⟩
  · rw [attemptCount_request_trace]
    exact attemptCount_attempt_loop_le cfg outcomes (cfg.retry_attempts + 1) 0
  · intro hall
    have hloop := attempt_loop_exhausted cfg outcomes msgs (cfg.retry_attempts + 1) 0
      (by omega) (Nat.zero_le _) (fun i h1 h2 => hall i h2)
    refine ⟨?_, ?_, ?_⟩
    · simp [HTTPClient_request, hloop]
    · rw [attemptCount_request_trace, hloop]
      simp [attemptCount, List.countP_append, List.countP_cons,
        attemptCount_retry_trace cfg.retry_attempts 0]
      have := attemptCount_retry_trace cfg.retry_attempts 0
      simp only [attemptCount] at this
      omega
    · rw [backoffs_request_trace, hloop]
      simp only [backoffs, List.filterMap_append, List.filterMap_cons]
      have := backoffs_retry_trace cfg.retry_attempts 0
      simp only [backoffs] at this
      simp [this, List.range_eq_range']
  · intro hfail hj hresp
    have hloop := attempt_loop_response cfg outcomes msgs j s (cfg.retry_attempts + 1) 0
      (by omega) (Nat.zero_le _) hj (fun i h1 h2 => hfail i h2) hresp
    refine ⟨?_, ?_, ?_⟩
    · simp [HTTPClient_request, hloop]
    · rw [attemptCount_request_trace, hloop]
      by_cases hd : 0 < cfg.delay_between_requests <;>
        · simp [hd, attemptCount, List.countP_append, List.countP_cons]
          have := attemptCount_retry_trace j 0
          simp only [attemptCount] at this
          omega
    · rw [backoffs_request_trace, hloop]
      by_cases hd : 0 < cfg.delay_between_requests <;>
        · simp only [hd, backoffs, List.filterMap_append, List.filterMap_cons,
            if_true, if_false]
          have := backoffs_retry_trace j 0
          simp only [backoffs] at this
          simp [this, List.range_eq_range', hd]

def cfg_retry2 : ScannerSettings := { retry_attempts := 2 }

/-- Two connection failures followed by a server-error response. -/
def outcomes_2fail : Nat → AttemptOutcome := fun i =>
  if i < 2 then AttemptOutcome.clientError "boom" else AttemptOutcome.httpResponse 500

/-- Witness for C3: with retryAttempts 2, two connection failures and then
a 500 response, the request returns the 500 response as is after three
attempts with backoff sleeps of 1 and 2 units. -/
theorem http_request_retry_policy_witness :
    (HTTPClient_request cfg_retry2 outcomes_2fail).1 = Except.ok 500 ∧
      attemptCount (HTTPClient_request cfg_retry2 outcomes_2fail).2 = 2 + 1 ∧
      backoffs (HTTPClient_request cfg_retry2 outcomes_2fail).2 =
        (List.range 2).map (2 ^ ·) :=
  (http_request_retry_policy cfg_retry2 outcomes_2fail (fun _ => "boom") 2 500).2.2
    (by decide) (by decide) (by decide)

def cfg_retry0 : ScannerSettings := { retry_attempts := 0 }

/-- Every attempt fails at the connection level. -/
def outcomes_fail : Nat → AttemptOutcome := fun _ => AttemptOutcome.clientError "boom"

/-- Counterexample to C6: with a positive configured delay and a final
connection-level failure, the error propagates and the permit is released
with no inter-request delay sleep anywhere in the trace, contradicting the
claim that the delay elapses before release on final failure as well. -/
theorem http_delay_on_failure_counterexample :
    0 < cfg_retry0.delay_between_requests ∧
      (HTTPClient_request cfg_retry0 outcomes_fail).1 =
        Except.error (ReqError.clientError "boom") ∧
      (HTTPClient_request cfg_retry0 outcomes_fail).2 =
        [ReqEvent.acquirePermit, ReqEvent.attemptStart 0, ReqEvent.releasePermit] ∧
      ∀ d : Rat, ReqEvent.delaySleep d ∉ (HTTPClient_request cfg_retry0 outcomes_fail).2 := by
  refine ⟨by norm_num [cfg_retry0], by decide, by decide, ?_⟩
  intro d h
  have ht : (HTTPClient_request cfg_retry0 outcomes_fail).2 =
      [ReqEvent.acquirePermit, ReqEvent.attemptStart 0, ReqEvent.releasePermit] := by decide
  rw [ht] at h
  simp at h

/-- Claim C6 (amended): after a response is obtained (success, including
HTTP error statuses) and the configured delay is positive, the delay sleep
happens while the permit is still held and the permit release is the very
next and last event; on final connection-level failure the error propagates
and the permit is released without any inter-request delay. -/
theorem http_delay_before_release (cfg : ScannerSettings)
    (outcomes outcomes2 : Nat → AttemptOutcome) (msgs msgs2 : Nat → String)
    (j s : Nat) :
    ((∀ i, i < j → outcomes i = AttemptOutcome.clientError (msgs i)) →
      j ≤ cfg.retry_attempts → outcomes j = AttemptOutcome.httpResponse s →
      0 < cfg.delay_between_requests →
      (HTTPClient_request cfg outcomes).2 =
        ReqEvent.acquirePermit :: retry_trace 0 j ++
          [ReqEvent.attemptStart j, ReqEvent.delaySleep cfg.delay_between_requests,
            ReqEvent.releasePermit]) ∧
      ((∀ i, i ≤ cfg.retry_attempts → outcomes2 i = AttemptOutcome.clientError (msgs2 i)) →
        ∀ d : Rat, ReqEvent.delaySleep d ∉ (HTTPClient_request cfg outcomes2).2) := by
  constructor
  · intro hfail hj hresp hdelay
    have hloop := attempt_loop_response cfg outcomes msgs j s (cfg.retry_attempts + 1) 0
      (by omega) (Nat.zero_le _) hj (fun i h1 h2 => hfail i h2) hresp
    simp [HTTPClient_request, hloop, hdelay]
  · intro hall d h
    have hloop := attempt_loop_exhausted cfg outcomes2 msgs2 (cfg.retry_attempts + 1) 0
      (by omega) (Nat.zero_le _) (fun i h1 h2 => hall i h2)
    rw [show (HTTPClient_request cfg outcomes2).2 =
        ReqEvent.acquirePermit ::
          (attempt_loop cfg outcomes2 (cfg.retry_attempts + 1) 0).2 ++
            [ReqEvent.releasePermit] from rfl, hloop] at h
    have hnm := delaySleep_not_mem_retry_trace cfg.retry_attempts 0 d
    simp [hnm] at h

/-- Witness for the amended C6: the successful and the exhausted scenarios
at concrete inputs. -/
theorem http_delay_before_release_witness :
    (HTTPClient_request cfg_retry2 outcomes_2fail).2 =
        ReqEvent.acquirePermit :: retry_trace 0 2 ++
          [ReqEvent.attemptStart 2,
            ReqEvent.delaySleep cfg_retry2.delay_between_requests,
            ReqEvent.releasePermit] ∧
      ∀ d : Rat, ReqEvent.delaySleep d ∉ (HTTPClient_request cfg_retry0 outcomes_fail).2 :=
  ⟨(http_delay_before_release cfg_retry2 outcomes_2fail outcomes_fail
      (fun _ => "boom") (fun _ => "boom") 2 500).1
      (by decide) (by decide) (by decide) (by norm_num [cfg_retry2]),
   (http_delay_before_release cfg_retry0 outcomes_2fail outcomes_fail
      (fun _ => "boom") (fun _ => "boom") 0 500).2 (by decide)⟩

def vuln_bogus : Vulnerability :=
  { title := "t", url := "u", severity := "NOT-A-SEVERITY",
    plugin_name := "p", plugin_category := "c" }

/-- Counterexample to C5: construction of a Finding with a severity outside
the declared domain succeeds, because the pydantic model constrains only
confidence; the severity domain exists only in description text. -/
theorem vulnerability_severity_unchecked_counterexample :
    vuln_bogus.severity ∉ (["CRITICAL", "HIGH", "MEDIUM", "LOW", "INFO"] : List String) ∧
      Vulnerability.construct vuln_bogus = Except.ok vuln_bogus := by
  exact ⟨by decide, by decide⟩

/-- Claim C5 (amended): construction of a Finding validates exactly the
confidence domain: it succeeds, returning the value unchanged, iff
confidence lies within [0, 1], so every constructed Finding has confidence
in [0, 1]; severity is not validated. -/
theorem vulnerability_construct_validates_confidence (v : Vulnerability) :
    (exceptIsOk (Vulnerability.construct v) = true ↔
        0 ≤ v.confidence ∧ v.confidence ≤ 1) ∧
      ∀ w, Vulnerability.construct v = Except.ok w →
        w = v ∧ 0 ≤ w.confidence ∧ w.confidence ≤ 1 := by
  unfold Vulnerability.construct
  by_cases h : 0 ≤ v.confidence ∧ v.confidence ≤ 1
  · rw [if_pos h]
    refine ⟨by simp [exceptIsOk, h], ?_⟩
    intro w hw
    injection hw with hw
    subst hw
    exact ⟨rfl, h.1, h.2⟩
  · rw [if_neg h]
    refine ⟨by simp [exceptIsOk, h], ?_⟩
    intro w hw
    exact absurd hw (by simp)

/-- Witness for the amended C5 at a concrete Finding with confidence 1. -/
theorem vulnerability_construct_validates_confidence_witness :
    (exceptIsOk (Vulnerability.construct vuln_a) = true ↔
        0 ≤ vuln_a.confidence ∧ vuln_a.confidence ≤ 1) ∧
      (vuln_a = vuln_a ∧ 0 ≤ vuln_a.confidence ∧ vuln_a.confidence ≤ 1) :=
  ⟨(vulnerability_construct_validates_confidence vuln_a).1,
   (vulnerability_construct_validates_confidence vuln_a).2 vuln_a (by decide)⟩

instance : IsTotal Vulnerability sort_le := by
  constructor
  intro a b
  unfold sort_le
  rcases Nat.lt_trichotomy (severity_order a.severity) (severity_order b.severity) with
    h | h | h
  · exact Or.inl (Or.inl h)
  · rcases le_total a.title b.title with ht | ht
    · exact Or.inl (Or.inr ⟨h, ht⟩)
    · exact Or.inr (Or.inr ⟨h.symm, ht⟩)
  · exact Or.inr (Or.inl h)

instance : IsTrans Vulnerability sort_le := by
  constructor
  intro a b c hab hbc
  unfold sort_le at hab hbc ⊢
  rcases hab with hab | ⟨hab, hab2⟩ <;> rcases hbc with hbc | ⟨hbc, hbc2⟩
  · exact Or.inl (lt_trans hab hbc)
  · exact Or.inl (hbc ▸ hab)
  · exact Or.inl (hab ▸ hbc)
  · exact Or.inr ⟨hab.trans hbc, le_trans hab2 hbc2⟩

def vuln_crit : Vulnerability :=
  { title := "vcrit", url := "http://example.com/4", severity := "CRITICAL",
    plugin_name := "d", plugin_category := "cat" }

def vuln_low1 : Vulnerability :=
  { title := "dup", url := "http://example.com/5", severity := "LOW",
    plugin_name := "e", plugin_category := "cat" }

def vuln_low2 : Vulnerability :=
  { title := "dup", url := "http://example.com/6", severity := "LOW",
    plugin_name := "f", plugin_category := "cat" }

/-- Claim C9: the severity sort orders the findings by the fixed severity
rank CRITICAL 0, HIGH 1, MEDIUM 2, LOW 3, INFO 4, anything else 5, with
ties broken by ascending title; it permutes the input, is stable on equal
keys, is idempotent, and on severities LOW, CRITICAL, MEDIUM it yields
CRITICAL, MEDIUM, LOW. -/
theorem sort_vulnerabilities_correct :
    (∀ l : List Vulnerability,
        List.Sorted sort_le (sort_vulnerabilities_by_severity l) ∧
          List.Perm (sort_vulnerabilities_by_severity l) l ∧
          sort_vulnerabilities_by_severity (sort_vulnerabilities_by_severity l) =
            sort_vulnerabilities_by_severity l ∧
          ∀ a b, sort_key a = sort_key b → List.Sublist [a, b] l →
            List.Sublist [a, b] (sort_vulnerabilities_by_severity l)) ∧
      (severity_order "CRITICAL" = 0 ∧ severity_order "HIGH" = 1 ∧
        severity_order "MEDIUM" = 2 ∧ severity_order "LOW" = 3 ∧
        severity_order "INFO" = 4 ∧
        ∀ s, s ≠ "CRITICAL" → s ≠ "HIGH" → s ≠ "MEDIUM" → s ≠ "LOW" →
          s ≠ "INFO" → severity_order s = 5) ∧
      sort_vulnerabilities_by_severity [vuln_b, vuln_crit, vuln_c] =
        [vuln_crit, vuln_c, vuln_b] := by
  refine ⟨?_, ⟨rfl, rfl, rfl, rfl, rfl, ?_⟩, by decide⟩
  · intro l
    refine ⟨List.sorted_insertionSort sort_le l, List.perm_insertionSort sort_le l,
      List.Sorted.insertionSort_eq (List.sorted_insertionSort sort_le l), ?_⟩
    intro a b hkey hsub
    apply List.pair_sublist_insertionSort ?_ hsub
    have h1 : severity_order a.severity = severity_order b.severity :=
      congrArg Prod.fst hkey
    have h2 : a.title = b.title := congrArg Prod.snd hkey
    exact Or.inr ⟨h1, le_of_eq h2⟩
  · intro s h1 h2 h3 h4 h5
    simp [severity_order, h1, h2, h3, h4, h5]

/-- Witness for C9: stability on two findings with equal sort key, and the
default rank on an unknown severity string. -/
theorem sort_vulnerabilities_correct_witness :
    sort_key vuln_low1 = sort_key vuln_low2 ∧
      List.Sublist [vuln_low1, vuln_low2]
        (sort_vulnerabilities_by_severity [vuln_low1, vuln_low2]) ∧
      severity_order "WHATEVER" = 5 :=
  ⟨by decide,
   (sort_vulnerabilities_correct.1 [vuln_low1, vuln_low2]).2.2.2 vuln_low1 vuln_low2
     (by decide) (by decide),
   sort_vulnerabilities_correct.2.1.2.2.2.2.2 "WHATEVER"
     (by decide) (by decide) (by decide) (by decide) (by decide)⟩

end Pyrate
